import Mathlib

/-!
Verification of the hyperliquid-agent trading engine.

The Python source is shallowly embedded over exact rationals (`ℚ`):
`decimal.Decimal` quantities become `ℚ`, `Decimal.quantize` with
`ROUND_UP` / `ROUND_DOWN` becomes `roundUp` / `roundDown` below
(Python's ROUND_UP rounds away from zero, ROUND_DOWN towards zero),
dictionaries become association lists, and exceptions become explicit
`Option` / `Except` values.  The embedded functions keep the names of
the source functions and local variables they model
(`execute_trades`, `place_order`, `min_trade_size`,
`take_profit_price`, `stop_loss_price`, `get_open_positions`, ...).
-/

namespace HyperliquidAgent

/-- `Decimal.quantize(Decimal("1e-dp"), rounding=ROUND_UP)`:
round away from zero to `dp` decimal places. -/
def roundUp (dp : ℕ) (x : ℚ) : ℚ :=
  if 0 ≤ x then (Int.ceil (x * 10 ^ dp) : ℚ) / 10 ^ dp
  else (Int.floor (x * 10 ^ dp) : ℚ) / 10 ^ dp

/-- `Decimal.quantize(Decimal("1e-dp"), rounding=ROUND_DOWN)`:
round towards zero to `dp` decimal places. -/
def roundDown (dp : ℕ) (x : ℚ) : ℚ :=
  if 0 ≤ x then (Int.floor (x * 10 ^ dp) : ℚ) / 10 ^ dp
  else (Int.ceil (x * 10 ^ dp) : ℚ) / 10 ^ dp

/-- The sizing formula with the minimum notional `M` as a parameter:
`(M / P).quantize(Decimal("0.000001"), rounding=ROUND_UP)`. -/
def sizing (M P : ℚ) : ℚ := roundUp 6 (M / P)

/-- `min_trade_size` as computed at `src/api/main.py:70` and
`src/clients/hyperliquid.py:110`: the minimum notional is the constant
`Decimal("20")`. -/
def min_trade_size (latest_price : ℚ) : ℚ := sizing 20 latest_price

/-- `take_profit_price` at `src/api/main.py:86`:
`(entry_price * Decimal("1.20")).quantize(Decimal("0.01"), rounding=ROUND_UP)`. -/
def take_profit_price (entry_price : ℚ) : ℚ :=
  roundUp 2 (entry_price * (120 / 100))

/-- `stop_loss_price` at `src/api/main.py:87`:
`(entry_price * Decimal("0.80")).quantize(Decimal("0.01"), rounding=ROUND_DOWN)`. -/
def stop_loss_price (entry_price : ℚ) : ℚ :=
  roundDown 2 (entry_price * (80 / 100))

/-- Python's builtin `round(x, dp)` at `src/clients/hyperliquid.py:103`,
modelled over `ℚ` as decimal round-half-to-even. -/
def roundHalfEven (dp : ℕ) (x : ℚ) : ℚ :=
  let y := x * 10 ^ dp
  let n : ℤ :=
    if y - Int.floor y < 1 / 2 then Int.floor y
    else if 1 / 2 < y - Int.floor y then Int.floor y + 1
    else if Int.floor y % 2 = 0 then Int.floor y else Int.floor y + 1
  (n : ℚ) / 10 ^ dp

/-- An order actually submitted to the exchange by
`self.exchange.create_order` at `src/clients/hyperliquid.py:114`. -/
structure Submitted where
  asset : String
  order_type : String
  side : String
  amount : ℚ
  price : ℚ
deriving DecidableEq, Repr

/-- The arguments of one invocation of `hyperliquid.place_order` by
`execute_trades` (`src/api/main.py:94,104,114,124,132`). -/
structure GatewayCall where
  asset : String
  side : String
  amount : ℚ
  price : ℚ
  take_profit : ℚ
  stop_loss : ℚ
deriving DecidableEq, Repr

/-- The three fields of an open-position record that `execute_trades`
reads at `src/api/main.py:76-78`. -/
structure Pos where
  side : String
  contracts : ℚ
  entryPrice : ℚ
deriving DecidableEq, Repr

/-- The exchange collaborators of the engine.  `fetch_ticker` returns
`none` when `self.exchange.fetch_ticker(asset)["last"]` raises or is
unparsable; `midPx` returns `none` when
`load_markets()[asset]["info"]["midPx"]` raises; `gateway_ok asset`
says whether the `create_order` calls for `asset` succeed (a `False`
models the exception caught at `src/clients/hyperliquid.py:145-147`). -/
structure Env where
  watchlist : List String
  fetch_ticker : String → Option ℚ
  midPx : String → Option ℚ
  gateway_ok : String → Bool

/-- `HyperliquidClient.place_order`, `src/clients/hyperliquid.py:93-147`.
`order_type` is `"limit"` iff the passed `price` is truthy (line 96).
On the limit path the passed `price` is replaced by the market mid
price (line 107) and the passed `amount` is never used: the submitted
size is recomputed as `ceil((20 / price), 6dp)` (line 110).  The
`take_profit` / `stop_loss` arguments only spawn separate trigger
orders (lines 120-141) and do not affect the returned main order; any
exception in the `try` block yields `None` (lines 145-147). -/
def place_order (env : Env) (asset side : String) (amount : ℚ) (price : ℚ)
    (take_profit stop_loss : ℚ) : Option Submitted :=
  let order_type := if price ≠ 0 then "limit" else "market"
  let fetched_price : Option ℚ :=
    if price ≠ 0 then env.midPx asset
    else (env.fetch_ticker asset).map fun latest_price =>
      roundHalfEven 2 (latest_price * (if side = "buy" then 1 + 2 / 100 else 1 - 2 / 100))
  match fetched_price with
  | none => none
  | some p =>
    if p = 0 then none
    else if env.gateway_ok asset then
      some { asset := asset, order_type := order_type, side := side,
             amount := roundUp 6 (20 / p), price := p }
    else none

/-- The mutable state threaded through `execute_trades`:
the `place_order` invocations made so far, the function-local
`executed_trades` list (`src/api/main.py:50`; the close/open branches
append the raw `place_order` result, which may be `None`), and the
process-wide `executed_trades_log` (`src/api/main.py:33`, appended only
at line 139). -/
structure ExecState where
  calls : List GatewayCall
  executed_trades : List (Option Submitted)
  executed_trades_log : List Submitted
deriving DecidableEq, Repr

/-- One iteration of the `for asset, decision in trade_decisions.items()`
loop of `execute_trades`, `src/api/main.py:52-141`.  An `Except.error`
is an uncaught Python exception: the `Decimal` division by zero at
line 70 when the fetched price is `0` (the `try` at lines 62-67 covers
only the ticker fetch). -/
def stepAsset (env : Env) (open_positions : List (String × Pos)) (s : ExecState)
    (asset decision : String) : Except String ExecState :=
  if asset ∉ env.watchlist then .ok s
  else if decision ≠ "buy" ∧ decision ≠ "sell" then .ok s
  else match env.fetch_ticker asset with
    | none => .ok s
    | some latest_price =>
      if latest_price = 0 then .error "decimal.DivisionByZero"
      else
        let (position_side, position_size, entry_price) :=
          match open_positions.lookup asset with
          | some position => (position.side, position.contracts, position.entryPrice)
          | none => ("none", min_trade_size latest_price, latest_price)
        let tp := take_profit_price entry_price
        let sl := stop_loss_price entry_price
        if decision = "sell" ∧ position_side = "long" then
          .ok { s with
            calls := s.calls ++ [⟨asset, "sell", position_size, latest_price, tp, sl⟩],
            executed_trades := s.executed_trades ++
              [place_order env asset "sell" position_size latest_price tp sl] }
        else if decision = "buy" ∧ position_side = "short" then
          .ok { s with
            calls := s.calls ++ [⟨asset, "buy", position_size, latest_price, tp, sl⟩],
            executed_trades := s.executed_trades ++
              [place_order env asset "buy" position_size latest_price tp sl] }
        else if decision = "sell" ∧ position_side = "none" then
          .ok { s with
            calls := s.calls ++
              [⟨asset, "sell", min_trade_size latest_price, latest_price, tp, sl⟩],
            executed_trades := s.executed_trades ++
              [place_order env asset "sell" (min_trade_size latest_price) latest_price tp sl] }
        else if decision = "buy" ∧ position_side = "none" then
          .ok { s with
            calls := s.calls ++
              [⟨asset, "buy", min_trade_size latest_price, latest_price, tp, sl⟩],
            executed_trades := s.executed_trades ++
              [place_order env asset "buy" (min_trade_size latest_price) latest_price tp sl] }
        else
          match place_order env asset decision (min_trade_size latest_price)
              latest_price tp sl with
          | some order =>
            .ok { s with
              calls := s.calls ++
                [⟨asset, decision, min_trade_size latest_price, latest_price, tp, sl⟩],
              executed_trades := s.executed_trades ++ [some order],
              executed_trades_log := s.executed_trades_log ++ [order] }
          | none =>
            .ok { s with
              calls := s.calls ++
                [⟨asset, decision, min_trade_size latest_price, latest_price, tp, sl⟩] }

/-- The outcome of a whole `execute_trades` call: either the loop
finished, or an uncaught exception aborted it, carrying the state as it
was when the exception was raised (earlier side effects persist). -/
inductive ExecOutcome where
  | completed (s : ExecState)
  | aborted (exn : String) (s : ExecState)
deriving DecidableEq, Repr

/-- The `for` loop of `execute_trades` over the remaining decisions. -/
def runTrades (env : Env) (open_positions : List (String × Pos)) :
    ExecState → List (String × String) → ExecOutcome
  | s, [] => .completed s
  | s, (asset, decision) :: rest =>
    match stepAsset env open_positions s asset decision with
    | .ok next => runTrades env open_positions next rest
    | .error e => .aborted e s

/-- `execute_trades`, `src/api/main.py:47-143`, starting from empty
call, trade and log lists. -/
def execute_trades (env : Env) (trade_decisions : List (String × String))
    (open_positions : List (String × Pos)) : ExecOutcome :=
  runTrades env open_positions ⟨[], [], []⟩ trade_decisions

/-- Python's substring test `needle in hay`. -/
def occurs_in (needle hay : String) : Bool :=
  hay.toList.tails.any fun t => needle.toList.isPrefixOf t

/-- `asset.split("/")[0]` at `src/api/main.py:178`: the characters
before the first `"/"` (the whole string when there is none). -/
def base_symbol (asset : String) : String :=
  String.mk (asset.toList.takeWhile (· != '/'))

/-- The manual-parsing fallback of `trading_loop`,
`src/api/main.py:177-180`: a decision for every watchlist asset,
`"buy"` when the asset's base symbol occurs in the raw response text,
`"hold"` otherwise. -/
def fallback_trade_decisions (content : String) (wl : List String) :
    List (String × String) :=
  wl.map fun asset =>
    (asset, if occurs_in (base_symbol asset) content then "buy" else "hold")

/-- Decision parsing in `trading_loop`, `src/api/main.py:172-181`:
`parsed` is `some d` when `json.loads` succeeds on the response and
`none` when it raises `JSONDecodeError`. -/
def parse_trade_decisions (parsed : Option (List (String × String)))
    (content : String) (wl : List String) : List (String × String) :=
  match parsed with
  | some trade_decisions => trade_decisions
  | none => fallback_trade_decisions content wl

/-- `start_trading`, `src/api/main.py:191-199`, as a transition on the
global `running` flag returning the new flag and the status string. -/
def start_trading (running : Bool) : Bool × String :=
  if !running then (true, "Trading bot started")
  else (running, "Trading bot already running")

/-- `stop_trading`, `src/api/main.py:202-209`. -/
def stop_trading (running : Bool) : Bool × String :=
  if running then (false, "Trading bot stopped")
  else (running, "Trading bot is not running")

/-- A raw position record from `self.exchange.fetch_positions()`, with
exactly the seven keys that `HyperliquidClient.get_open_positions`
filters for at `src/clients/hyperliquid.py:54-57`; a `none` field is an
absent key. -/
structure RawPosition where
  symbol : Option String
  side : Option String
  contracts : Option ℚ
  entryPrice : Option ℚ
  leverage : Option ℚ
  unrealizedPnl : Option ℚ
  liquidationPrice : Option ℚ
deriving DecidableEq, Repr

/-- The `for pos in positions` loop of `get_open_positions`,
`src/clients/hyperliquid.py:49-59`: skip when
`float(pos.get("contracts", 0)) == 0`, otherwise key the filtered
record by `pos["symbol"]` — whose absence raises `KeyError`, modelled
as `Except.error`. -/
def filter_positions : List RawPosition → Except Unit (List (String × RawPosition))
  | [] => .ok []
  | pos :: rest =>
    if pos.contracts.getD 0 = 0 then filter_positions rest
    else match pos.symbol with
      | none => .error ()
      | some sym => (filter_positions rest).map fun m => (sym, pos) :: m

/-- `HyperliquidClient.get_open_positions`,
`src/clients/hyperliquid.py:43-80` (the second, effective definition).
`fetched` is the result of `self.exchange.fetch_positions()`, `.error`
when it raises.  Any exception inside the `try` — from the fetch or
from the `KeyError` on `pos["symbol"]` — is caught at lines 78-80 and
an empty map is returned. -/
def get_open_positions (fetched : Except Unit (List RawPosition)) :
    List (String × RawPosition) :=
  match fetched with
  | .error _ => []
  | .ok positions =>
    match filter_positions positions with
    | .ok m => m
    | .error _ => []

/-- For nonnegative `x`, `roundUp` never goes below `x`. -/
lemma le_roundUp (dp : ℕ) (x : ℚ) (hx : 0 ≤ x) : x ≤ roundUp dp x := by
  rw [roundUp, if_pos hx, le_div_iff₀ (by positivity)]
  exact Int.le_ceil (x * 10 ^ dp)

/-- For nonnegative `x`, `roundDown` never goes above `x`. -/
lemma roundDown_le (dp : ℕ) (x : ℚ) (hx : 0 ≤ x) : roundDown dp x ≤ x := by
  rw [roundDown, if_pos hx, div_le_iff₀ (by positivity)]
  exact Int.floor_le (x * 10 ^ dp)

/-- `roundUp` is monotone on nonnegative inputs. -/
lemma roundUp_le_roundUp (dp : ℕ) {x y : ℚ} (hx : 0 ≤ x) (hxy : x ≤ y) :
    roundUp dp x ≤ roundUp dp y := by
  rw [roundUp, roundUp, if_pos hx, if_pos (hx.trans hxy)]
  have : x * 10 ^ dp ≤ y * 10 ^ dp := by
    apply mul_le_mul_of_nonneg_right hxy (by positivity)
  exact div_le_div_of_nonneg_right
    (by exact_mod_cast Int.ceil_le_ceil this) (by positivity)

/-- A sample raw position record, used to exercise
`get_open_positions` on concrete data. -/
def sampleRawPosition : RawPosition :=
  { symbol := some "BTC/USDC:USDC", side := some "long", contracts := some 1,
    entryPrice := some 29000, leverage := some 5, unrealizedPnl := some 12,
    liquidationPrice := some 21000 }

/-- Every entry surviving the `contracts` filter of
`get_open_positions` has a present, nonzero `contracts` field. -/
lemma filter_positions_contracts {l : List RawPosition}
    {m : List (String × RawPosition)} (hm : filter_positions l = .ok m)
    {sym : String} {p : RawPosition} (hp : (sym, p) ∈ m) :
    ∃ c, p.contracts = some c ∧ c ≠ 0 := by
  induction l generalizing m with
  | nil =>
    rw [filter_positions] at hm
    cases hm
    simp at hp
  | cons pos rest ih =>
    rw [filter_positions] at hm
    by_cases h0 : pos.contracts.getD 0 = 0
    · rw [if_pos h0] at hm
      exact ih hm hp
    · rw [if_neg h0] at hm
      cases hsym : pos.symbol with
      | none => rw [hsym] at hm; cases hm
      | some s =>
        rw [hsym] at hm
        cases hrec : filter_positions rest with
        | error e => rw [hrec] at hm; cases hm
        | ok tail =>
          rw [hrec] at hm
          cases hm
          rcases List.mem_cons.mp hp with hp | hp
          · obtain ⟨h1, h2⟩ := (Prod.mk.injEq .. |>.mp hp)
            subst h2
            cases hc : p.contracts with
            | none => rw [hc] at h0; simp at h0
            | some c =>
              rw [hc] at h0
              exact ⟨c, rfl, by simpa using h0⟩
          · exact ih hrec hp

/-- C1: on decision `sell` with an open long position, `execute_trades`
makes exactly one gateway call — a close-long with `amount =
position.contracts` and the latest price — and opens no new position in
that cycle.  But the claim also says the order placed at the gateway
sells quantity `position.size` at the latest fetched price, and there
the code diverges: `place_order` discards both the passed amount and
the passed price, submitting `ceil((20 / midPx), 6dp)` at the market
mid price (`src/clients/hyperliquid.py:107,110,115`).  With position
size `1`, latest price `2500`, mid price `2500`, the submitted order
has amount `1/125 = 0.008`, not `1`. -/
theorem C1_close_long_submits_min_size_not_position_size :
    execute_trades
      { watchlist := ["ETH/USDC:USDC"],
        fetch_ticker := fun _ => some 2500,
        midPx := fun _ => some 2500,
        gateway_ok := fun _ => true }
      [("ETH/USDC:USDC", "sell")]
      [("ETH/USDC:USDC", ⟨"long", 1, 2000⟩)]
    = .completed
        { calls := [⟨"ETH/USDC:USDC", "sell", 1, 2500, 2400, 1600⟩],
          executed_trades :=
            [some ⟨"ETH/USDC:USDC", "limit", "sell", 1 / 125, 2500⟩],
          executed_trades_log := [] }
    ∧ (1 / 125 : ℚ) ≠ 1 := by
  constructor
  · simp +decide [execute_trades, runTrades, stepAsset, place_order,
      min_trade_size, sizing, take_profit_price, stop_loss_price,
      roundUp, roundDown, List.lookup]
    norm_num
  · norm_num

/-- C2: the claim says `buy` while already long produces no intent and
no gateway order (pyramiding suppressed).  The code disagrees: that
combination matches none of the four intent branches and falls through
to the unconditional `place_order` at `src/api/main.py:132` (under the
comment "Place New Orders if No Existing Position"), adding
`min_trade_size` to the existing long — with decision `buy`, position
`{side: long, contracts: 2, entry: 1800}` and price `2000`, one gateway
call of size `1/100` is made and its order is even the only kind
appended to `executed_trades_log`. -/
theorem C2_buy_while_long_places_pyramiding_order :
    execute_trades
      { watchlist := ["BTC/USDC:USDC"],
        fetch_ticker := fun _ => some 2000,
        midPx := fun _ => some 2000,
        gateway_ok := fun _ => true }
      [("BTC/USDC:USDC", "buy")]
      [("BTC/USDC:USDC", ⟨"long", 2, 1800⟩)]
    = .completed
        { calls := [⟨"BTC/USDC:USDC", "buy", 1 / 100, 2000, 2160, 1440⟩],
          executed_trades :=
            [some ⟨"BTC/USDC:USDC", "limit", "buy", 1 / 100, 2000⟩],
          executed_trades_log :=
            [⟨"BTC/USDC:USDC", "limit", "buy", 1 / 100, 2000⟩] } := by
  simp +decide [execute_trades, runTrades, stepAsset, place_order,
    min_trade_size, sizing, take_profit_price, stop_loss_price,
    roundUp, roundDown, List.lookup]
  norm_num

/-- C3: the computed quantity `sizing M P = ceil((M / P), 6dp)` never
rounds below the exact quotient, so `sizing M P * P ≥ M` for all
`M, P > 0`, and `sizing` is monotonically non-increasing in `P`; in the
code the minimum notional `M` is the constant `20`
(`src/api/main.py:70`, `src/clients/hyperliquid.py:110`). -/
theorem C3_sizing_minimum_notional (M P : ℚ) (hM : 0 < M) (hP : 0 < P) :
    M / P ≤ sizing M P ∧
    M ≤ sizing M P * P ∧
    (∀ Q : ℚ, P ≤ Q → sizing M Q ≤ sizing M P) ∧
    min_trade_size P = sizing 20 P := by
  have hq : 0 ≤ M / P := (div_pos hM hP).le
  have hle : M / P ≤ sizing M P := le_roundUp 6 _ hq
  refine ⟨hle, ?_, ?_, rfl⟩
  · have h := mul_le_mul_of_nonneg_right hle hP.le
    rwa [div_mul_cancel₀ M hP.ne'] at h
  · intro Q hQ
    have hQ0 : 0 < Q := hP.trans_le hQ
    have hdiv : M / Q ≤ M / P := by gcongr
    exact roundUp_le_roundUp 6 (div_pos hM hQ0).le hdiv

/-- Witness for C3 at `M = 20`, `P = 3`, `Q = 5`. -/
theorem C3_sizing_minimum_notional_witness :
    (0 : ℚ) < 20 ∧ (0 : ℚ) < 3 ∧ (3 : ℚ) ≤ 5 ∧
    (20 : ℚ) / 3 ≤ sizing 20 3 ∧ (20 : ℚ) ≤ sizing 20 3 * 3 ∧
    sizing 20 5 ≤ sizing 20 3 ∧ min_trade_size 3 = sizing 20 3 := by
  have h := C3_sizing_minimum_notional 20 3 (by norm_num) (by norm_num)
  exact ⟨by norm_num, by norm_num, by norm_num,
    h.1, h.2.1, h.2.2.1 5 (by norm_num), h.2.2.2⟩

/-- C4: for every entry price `E > 0` the take-profit is
`E * 1.20` rounded up to 2 decimal places, the stop-loss is `E * 0.80`
rounded down to 2 decimal places, and
`takeProfit(E) > E > stopLoss(E)` (`src/api/main.py:86-87`). -/
theorem C4_bracket_prices (E : ℚ) (hE : 0 < E) :
    take_profit_price E = roundUp 2 (E * (120 / 100)) ∧
    stop_loss_price E = roundDown 2 (E * (80 / 100)) ∧
    stop_loss_price E < E ∧ E < take_profit_price E := by
  refine ⟨rfl, rfl, ?_, ?_⟩
  · have h := roundDown_le 2 (E * (80 / 100)) (by positivity)
    have hlt : E * (80 / 100) < E := by nlinarith
    exact h.trans_lt hlt
  · have h := le_roundUp 2 (E * (120 / 100)) (by positivity)
    have hlt : E < E * (120 / 100) := by nlinarith
    exact hlt.trans_le h

/-- Witness for C4 at `E = 2000`: brackets `2400` and `1600`. -/
theorem C4_bracket_prices_witness :
    (0 : ℚ) < 2000 ∧ stop_loss_price 2000 < 2000 ∧
    (2000 : ℚ) < take_profit_price 2000 ∧
    take_profit_price 2000 = 2400 ∧ stop_loss_price 2000 = 1600 := by
  have h := C4_bracket_prices 2000 (by norm_num)
  refine ⟨by norm_num, h.2.2.1, h.2.2.2, ?_, ?_⟩
  · norm_num [take_profit_price, roundUp]
  · norm_num [stop_loss_price, roundDown]

/-- C5 counterexample: the claim says sizing fails with
`InvalidPriceError` whenever the reference price `P ≤ 0`.  No such
error exists in the code, and at `P = -1 < 0` nothing fails at all:
the asset's resolution completes and a gateway order of negative size
`-20` is placed. -/
theorem C5_counterexample_negative_price_no_failure :
    execute_trades
      { watchlist := ["BTC/USDC:USDC"],
        fetch_ticker := fun _ => some (-1),
        midPx := fun _ => some (-1),
        gateway_ok := fun _ => true }
      [("BTC/USDC:USDC", "buy")] []
    = .completed
        { calls := [⟨"BTC/USDC:USDC", "buy", -20, -1, -(6 / 5), -(4 / 5)⟩],
          executed_trades :=
            [some ⟨"BTC/USDC:USDC", "limit", "buy", -20, -1⟩],
          executed_trades_log := [] }
    ∧ min_trade_size (-1) < 0 := by
  constructor
  · simp +decide [execute_trades, runTrades, stepAsset, place_order,
      min_trade_size, sizing, take_profit_price, stop_loss_price,
      roundUp, roundDown, List.lookup]
    norm_num [Int.ceil_neg, Int.floor_neg]
  · norm_num [min_trade_size, sizing, roundUp]

/-- C5 amended: the sizing at `src/api/main.py:70` raises an uncaught
`decimal.DivisionByZero` exactly when the fetched price is `0`, and
that exception aborts the whole `execute_trades` batch — the remaining
assets are never processed (the `try` at lines 62-67 covers only the
ticker fetch); for `P < 0` no failure occurs and the computed quantity
is negative. -/
theorem C5_amended_zero_price_aborts_batch (env : Env)
    (ops : List (String × Pos)) (s : ExecState) (asset decision : String)
    (rest : List (String × String)) (ha : asset ∈ env.watchlist)
    (hd : decision = "buy" ∨ decision = "sell")
    (h0 : env.fetch_ticker asset = some 0) (P : ℚ) (hP : P < 0) :
    stepAsset env ops s asset decision = .error "decimal.DivisionByZero" ∧
    runTrades env ops s ((asset, decision) :: rest) =
      .aborted "decimal.DivisionByZero" s ∧
    min_trade_size P < 0 := by
  have hstep : stepAsset env ops s asset decision =
      .error "decimal.DivisionByZero" := by
    rcases hd with hd | hd <;> subst hd <;> simp +decide [stepAsset, ha, h0]
  refine ⟨hstep, by simp [runTrades, hstep], ?_⟩
  have h1 : (20 : ℚ) / P < 0 := div_neg_of_pos_of_neg (by norm_num) hP
  have h2 : (20 / P) * 10 ^ 6 < 0 := mul_neg_of_neg_of_pos h1 (by positivity)
  rw [min_trade_size, sizing, roundUp, if_neg (not_le.mpr h1)]
  have h3 : ((⌊(20 / P : ℚ) * 10 ^ 6⌋ : ℤ) : ℚ) < 0 :=
    (Int.floor_le _).trans_lt h2
  exact div_neg_of_neg_of_pos h3 (by positivity)

/-- Witness for C5 amended: a batch of two assets aborts on the first
asset's zero price with the second asset untouched, and `P = -1` gives
a negative quantity. -/
theorem C5_amended_zero_price_aborts_batch_witness :
    "BTC/USDC:USDC" ∈ ["BTC/USDC:USDC"] ∧ (-1 : ℚ) < 0 ∧
    runTrades
      { watchlist := ["BTC/USDC:USDC"],
        fetch_ticker := fun _ => some 0,
        midPx := fun _ => some 1,
        gateway_ok := fun _ => true } []
      ⟨[], [], []⟩ [("BTC/USDC:USDC", "buy"), ("ETH/USDC:USDC", "buy")] =
      .aborted "decimal.DivisionByZero" ⟨[], [], []⟩ ∧
    min_trade_size (-1) < 0 := by
  have h := C5_amended_zero_price_aborts_batch
    { watchlist := ["BTC/USDC:USDC"],
      fetch_ticker := fun _ => some 0,
      midPx := fun _ => some 1,
      gateway_ok := fun _ => true } [] ⟨[], [], []⟩
    "BTC/USDC:USDC" "buy" [("ETH/USDC:USDC", "buy")]
    (by simp) (Or.inl rfl) rfl (-1) (by norm_num)
  exact ⟨by simp, by norm_num, h.2.1, h.2.2⟩

/-- C6: the claim says a gateway failure for asset X leaves asset Y's
plan intact and that every acknowledged order is appended to the trade
log.  The first half holds: `place_order` returns `None` on failure and
the loop continues.  The second half is where the code diverges: the
four intent branches append only to the function-local
`executed_trades` list (discarded by `trading_loop`), and
`executed_trades_log` is appended only in the fall-through branch at
`src/api/main.py:139` — here Y's acknowledged open-long order executes
but `executed_trades_log` stays empty. -/
theorem C6_acknowledged_order_missing_from_trade_log :
    execute_trades
      { watchlist := ["BTC/USDC:USDC", "ETH/USDC:USDC"],
        fetch_ticker := fun _ => some 2000,
        midPx := fun _ => some 2000,
        gateway_ok := fun a => a == "ETH/USDC:USDC" }
      [("BTC/USDC:USDC", "sell"), ("ETH/USDC:USDC", "buy")]
      [("BTC/USDC:USDC", ⟨"long", 1, 1800⟩)]
    = .completed
        { calls :=
            [⟨"BTC/USDC:USDC", "sell", 1, 2000, 2160, 1440⟩,
             ⟨"ETH/USDC:USDC", "buy", 1 / 100, 2000, 2400, 1600⟩],
          executed_trades :=
            [none, some ⟨"ETH/USDC:USDC", "limit", "buy", 1 / 100, 2000⟩],
          executed_trades_log := [] } := by
  simp +decide [execute_trades, runTrades, stepAsset, place_order,
    min_trade_size, sizing, take_profit_price, stop_loss_price,
    roundUp, roundDown, List.lookup]
  norm_num

/-- C7: an asset outside the watchlist is skipped before any gateway
interaction: processing it leaves the execution state — calls, executed
trades and log — unchanged, for any decision value
(`src/api/main.py:52-55`). -/
theorem C7_non_watchlist_asset_ignored (env : Env)
    (ops : List (String × Pos)) (s : ExecState) (asset decision : String)
    (rest : List (String × String)) (h : asset ∉ env.watchlist) :
    stepAsset env ops s asset decision = .ok s ∧
    runTrades env ops s ((asset, decision) :: rest) =
      runTrades env ops s rest := by
  have hstep : stepAsset env ops s asset decision = .ok s := by
    simp [stepAsset, h]
  exact ⟨hstep, by simp [runTrades, hstep]⟩

/-- Witness for C7: a decision for an asset outside the default
watchlist changes nothing. -/
theorem C7_non_watchlist_asset_ignored_witness :
    "DOGE/USDC:USDC" ∉
      (["BTC/USDC:USDC", "ETH/USDC:USDC", "SOL/USDC:USDC"] : List String) ∧
    stepAsset
      { watchlist := ["BTC/USDC:USDC", "ETH/USDC:USDC", "SOL/USDC:USDC"],
        fetch_ticker := fun _ => some 100,
        midPx := fun _ => some 100,
        gateway_ok := fun _ => true } [] ⟨[], [], []⟩
      "DOGE/USDC:USDC" "sell" = .ok ⟨[], [], []⟩ := by
  have hmem : "DOGE/USDC:USDC" ∉
      (["BTC/USDC:USDC", "ETH/USDC:USDC", "SOL/USDC:USDC"] : List String) := by
    decide
  exact ⟨hmem,
    (C7_non_watchlist_asset_ignored
      { watchlist := ["BTC/USDC:USDC", "ETH/USDC:USDC", "SOL/USDC:USDC"],
        fetch_ticker := fun _ => some 100,
        midPx := fun _ => some 100,
        gateway_ok := fun _ => true } [] ⟨[], [], []⟩
      "DOGE/USDC:USDC" "sell" [] hmem).1⟩

/-- C8: when the decision payload is unparsable (`json.loads` raises
`JSONDecodeError`), the loop derives fallback decisions instead of
aborting: exactly the watchlist assets get a decision, `"buy"` when the
asset's base symbol — the part before `"/"` — occurs in the raw text
and `"hold"` otherwise (`src/api/main.py:172-181`). -/
theorem C8_unparsable_payload_keyword_fallback (content : String)
    (wl : List String) (asset decision : String) :
    parse_trade_decisions none content wl =
      fallback_trade_decisions content wl ∧
    ((asset, decision) ∈ parse_trade_decisions none content wl ↔
      asset ∈ wl ∧
      decision =
        if occurs_in (base_symbol asset) content then "buy" else "hold") := by
  refine ⟨rfl, ?_⟩
  simp only [parse_trade_decisions, fallback_trade_decisions, List.mem_map]
  constructor
  · rintro ⟨x, hx, hxe⟩
    obtain ⟨h1, h2⟩ := Prod.mk.injEq .. |>.mp hxe
    subst h1
    exact ⟨hx, h2.symm⟩
  · rintro ⟨hx, hd⟩
    exact ⟨asset, hx, by rw [hd]⟩

/-- Witness for C8: with raw text naming BTC but not ETH, the fallback
maps BTC to a buy and ETH to a hold. -/
theorem C8_unparsable_payload_keyword_fallback_witness :
    (("BTC/USDC:USDC", "buy") ∈
      parse_trade_decisions none "I would buy BTC today"
        ["BTC/USDC:USDC", "ETH/USDC:USDC"]) ∧
    (("ETH/USDC:USDC", "hold") ∈
      parse_trade_decisions none "I would buy BTC today"
        ["BTC/USDC:USDC", "ETH/USDC:USDC"]) := by
  constructor
  · exact (C8_unparsable_payload_keyword_fallback "I would buy BTC today"
      ["BTC/USDC:USDC", "ETH/USDC:USDC"] "BTC/USDC:USDC" "buy").2.mpr
      ⟨by decide, by decide⟩
  · exact (C8_unparsable_payload_keyword_fallback "I would buy BTC today"
      ["BTC/USDC:USDC", "ETH/USDC:USDC"] "ETH/USDC:USDC" "hold").2.mpr
      ⟨by decide, by decide⟩

/-- C9: `start_trading` and `stop_trading` are idempotent on the
`running` flag: from `Stopped`, start sets `Running`; starting again is
a no-op returning a status string, and symmetrically for stop
(`src/api/main.py:191-209`). -/
theorem C9_start_stop_idempotent :
    start_trading false = (true, "Trading bot started") ∧
    start_trading true = (true, "Trading bot already running") ∧
    stop_trading true = (false, "Trading bot stopped") ∧
    stop_trading false = (false, "Trading bot is not running") ∧
    (start_trading (start_trading false).1).1 = (start_trading false).1 ∧
    (stop_trading (stop_trading true).1).1 = (stop_trading true).1 :=
  ⟨rfl, rfl, rfl, rfl, rfl, rfl⟩

/-- C10: `get_open_positions` never propagates an exception — an
exchange error yields the empty map — and every returned entry has a
present, nonzero `contracts` field
(`src/clients/hyperliquid.py:43-80`). -/
theorem C10_open_positions_error_empty_and_contracts_nonzero
    (fetched : Except Unit (List RawPosition)) (sym : String)
    (p : RawPosition) (h : (sym, p) ∈ get_open_positions fetched) :
    get_open_positions (.error ()) = [] ∧
    ∃ c, p.contracts = some c ∧ c ≠ 0 := by
  refine ⟨rfl, ?_⟩
  cases fetched with
  | error e => simp [get_open_positions] at h
  | ok positions =>
    rw [get_open_positions] at h
    cases hf : filter_positions positions with
    | error e => rw [hf] at h; simp at h
    | ok m =>
      rw [hf] at h
      exact filter_positions_contracts hf h

/-- Witness for C10: a fetched position with one contract survives the
filter and indeed carries a nonzero contracts field. -/
theorem C10_open_positions_witness :
    (("BTC/USDC:USDC", sampleRawPosition) ∈
      get_open_positions (.ok [sampleRawPosition])) ∧
    ∃ c, sampleRawPosition.contracts = some c ∧ c ≠ 0 := by
  have hmem : ("BTC/USDC:USDC", sampleRawPosition) ∈
      get_open_positions (.ok [sampleRawPosition]) := by
    simp [get_open_positions, filter_positions, sampleRawPosition, Except.map]
  exact ⟨hmem,
    (C10_open_positions_error_empty_and_contracts_nonzero _ _ _ hmem).2⟩

end HyperliquidAgent
